import Mathlib

/-!
Verification of the GIMAT hydrological forecasting system.

The repository ships a React frontend (`Dashboard.tsx`, `Predictions.tsx`,
`api.ts`), database initialization scripts, and deployment configuration.
The forecasting core itself (signal decomposer, trend / fluctuation /
spatial predictors, ensemble combiner, evaluator, orchestrator) is a
Python backend service that is not present among the repository sources;
for properties about that core we model the missing components faithfully
from the specification's own words, and mark each such definition.

Numeric values are modelled as rationals (`ℚ`): the JavaScript / Python
floats carry exact decimal literals at every program point the claims
touch, and exact rational equality implies equality within any
floating-point tolerance the spec allows.
-/

namespace Gimat

/-! ## Dashboard page (src/frontend/src/pages/Dashboard.tsx) -/

/-- A monitored station record, as in the `Station` interface of
`Dashboard.tsx` (identity, coordinates; name and river elided as the
claims never read them). -/
structure StationRec where
  stationId : String
  latitude : ℚ
  longitude : ℚ
  deriving DecidableEq

/-- The latest observation for the selected station, as in the
`LatestData` interface of `Dashboard.tsx`. -/
structure LatestObservation where
  discharge : ℚ
  water_level : ℚ
  temperature : ℚ
  deriving DecidableEq

/-- Hazard state shown by the Dashboard status badge. -/
inductive HazardStatus
  | critical
  | warning
  | safe
  deriving DecidableEq

/-- The status badge of `Dashboard.tsx` (lines 228–235):
`water_level > 4 ? critical : water_level > 3 ? warning : safe`. -/
def badgeStatus (wl : ℚ) : HazardStatus :=
  if wl > 4 then .critical else if wl > 3 then .warning else .safe

/-- Marker color hex associated with each hazard state, as used by both
the badge CSS classes and the map legend of `Dashboard.tsx`. -/
def statusColor : HazardStatus → String
  | .critical => "#EF4444"
  | .warning => "#F59E0B"
  | .safe => "#10B981"

/-- `getMarkerStatus` of `Dashboard.tsx` (lines 112–118): green when no
latest data is loaded or the marker is not the selected station;
otherwise red above 4.0, amber above 3.0, green below. -/
def getMarkerStatus (latestData : Option LatestObservation)
    (selectedStation : String) (station : StationRec) : String :=
  match latestData with
  | none => "#10B981"
  | some d =>
    if station.stationId ≠ selectedStation then "#10B981"
    else
      let wl := d.water_level
      if wl > 4 then "#EF4444"
      else if wl > 3 then "#F59E0B"
      else "#10B981"

/-- `getMarkerXY` of `Dashboard.tsx` (lines 121–126): project latitude
and longitude onto the 100×100 SVG viewBox using Uzbekistan's
approximate bounds, then clamp both coordinates into [5, 95]. -/
def getMarkerXY (lat lon : ℚ) : ℚ × ℚ :=
  let x := ((lon - 56) / (73 - 56)) * 100
  let y := ((42 - lat) / (42 - 37)) * 100
  (max 5 (min 95 x), max 5 (min 95 y))

/-- C10: for every latitude and longitude, `getMarkerXY` returns
coordinates with both components clamped into the closed interval
[5, 95], so every station marker lands inside the 100×100 viewBox. -/
theorem getMarkerXY_clamped (lat lon : ℚ) :
    5 ≤ (getMarkerXY lat lon).1 ∧ (getMarkerXY lat lon).1 ≤ 95 ∧
    5 ≤ (getMarkerXY lat lon).2 ∧ (getMarkerXY lat lon).2 ≤ 95 := by
  unfold getMarkerXY
  refine ⟨le_max_left _ _, max_le (by norm_num) (min_le_left _ _),
    le_max_left _ _, max_le (by norm_num) (min_le_left _ _)⟩

/-- C9: the Dashboard hazard classification is exhaustive and mutually
exclusive — the badge is critical exactly when `water_level > 4`,
warning exactly when `3 < water_level ≤ 4`, and safe exactly when
`water_level ≤ 3` — and for the selected station with latest data
present, `getMarkerStatus` returns exactly the color of the badge's
status, so badge and marker always agree. -/
theorem badge_marker_agree (wl : ℚ) (d : LatestObservation)
    (st : StationRec) (sel : String)
    (hsel : st.stationId = sel) (hwl : d.water_level = wl) :
    ((badgeStatus wl = .critical ↔ 4 < wl) ∧
      (badgeStatus wl = .warning ↔ 3 < wl ∧ wl ≤ 4) ∧
      (badgeStatus wl = .safe ↔ wl ≤ 3)) ∧
    getMarkerStatus (some d) sel st = statusColor (badgeStatus wl) := by
  subst hsel
  constructor
  · unfold badgeStatus
    rcases lt_or_le 4 wl with h4 | h4
    · rw [if_pos h4]
      exact ⟨⟨fun _ => h4, fun _ => rfl⟩,
        ⟨fun h => (nomatch h), fun h => absurd h4 (not_lt.mpr h.2)⟩,
        ⟨fun h => (nomatch h),
          fun h => absurd h4 (not_lt.mpr (le_trans h (by norm_num)))⟩⟩
    · rw [if_neg (not_lt.mpr h4)]
      rcases lt_or_le 3 wl with h3 | h3
      · rw [if_pos h3]
        exact ⟨⟨fun h => (nomatch h), fun h => absurd h (not_lt.mpr h4)⟩,
          ⟨fun _ => ⟨h3, h4⟩, fun _ => rfl⟩,
          ⟨fun h => (nomatch h), fun h => absurd h (not_le.mpr h3)⟩⟩
      · rw [if_neg (not_lt.mpr h3)]
        exact ⟨⟨fun h => (nomatch h),
            fun h => absurd h (not_lt.mpr (le_trans h3 (by norm_num)))⟩,
          ⟨fun h => (nomatch h), fun h => absurd h.1 (not_lt.mpr h3)⟩,
          ⟨fun _ => h3, fun _ => rfl⟩⟩
  · unfold getMarkerStatus badgeStatus statusColor
    simp only [ne_eq, not_true_eq_false, if_false, hwl]
    rcases lt_or_le 4 wl with h4 | h4
    · rw [if_pos h4, if_pos h4]
    · rw [if_neg (not_lt.mpr h4), if_neg (not_lt.mpr h4)]
      rcases lt_or_le 3 wl with h3 | h3
      · rw [if_pos h3, if_pos h3]
      · rw [if_neg (not_lt.mpr h3), if_neg (not_lt.mpr h3)]

/-- Witness for C9 at a concrete warning-level observation. -/
theorem badge_marker_agree_witness :
    ((badgeStatus (7/2) = .critical ↔ 4 < (7/2 : ℚ)) ∧
      (badgeStatus (7/2) = .warning ↔ 3 < (7/2 : ℚ) ∧ (7/2 : ℚ) ≤ 4) ∧
      (badgeStatus (7/2) = .safe ↔ (7/2 : ℚ) ≤ 3)) ∧
    getMarkerStatus (some ⟨150, 7/2, 18⟩) "chirchiq_post_1"
        ⟨"chirchiq_post_1", 41, 69⟩ =
      statusColor (badgeStatus (7/2)) :=
  badge_marker_agree (7/2) ⟨150, 7/2, 18⟩ ⟨"chirchiq_post_1", 41, 69⟩
    "chirchiq_post_1" rfl rfl

/-! ## Predictions page (src/frontend/src/pages/Predictions.tsx) -/

/-- Tag distinguishing historical from forecast chart points, as in the
`PredictionData` interface of `Predictions.tsx`. -/
inductive DataTag
  | history
  | forecast
  deriving DecidableEq

/-- One chart point of `Predictions.tsx` (`PredictionData`): the date is
kept as a day offset from today (negative = past), `H` is the water
level, `Q` the discharge. -/
structure PredictionDatum where
  dateOffset : ℤ
  H : ℚ
  Q : ℚ
  tag : DataTag
  deriving DecidableEq

/-- The `Metrics` interface of `Predictions.tsx`. -/
structure UiMetrics where
  NSE : ℚ
  RMSE : ℚ
  MAE : ℚ
  R2 : ℚ
  deriving DecidableEq

/-- `generateMockData` of `Predictions.tsx` (lines 64–89): 30 history
points (i = 30 down to 1, date = today − i) followed by 7 forecast
points (i = 0..6, date = today + i), with `Math.random()` modelled as a
caller-supplied stream `rand` consumed one draw per numeric field, and
the metrics set to the constants NSE 0.94, RMSE 0.032, MAE 0.021,
R2 0.96. -/
def generateMockData (rand : ℕ → ℚ) : List PredictionDatum × UiMetrics :=
  ((List.range 30).map (fun j : ℕ =>
      PredictionDatum.mk ((j : ℤ) - 30) (5/2 + rand (2 * j) * (1/2))
        (140 + rand (2 * j + 1) * 20) .history) ++
    (List.range 7).map (fun i : ℕ =>
      PredictionDatum.mk (i : ℤ) (3 + rand (60 + 2 * i) * (4/5))
        (180 + rand (60 + 2 * i + 1) * 30) .forecast),
   ⟨94/100, 32/1000, 21/1000, 96/100⟩)

/-- Successful response body of the forecast POST endpoint, as consumed
by `handleGenerate` (`response.data.data`, `response.data.metrics`). -/
structure ServerForecastData where
  data : List PredictionDatum
  metrics : UiMetrics
  deriving DecidableEq

/-- `handleGenerate` of `Predictions.tsx` (lines 43–62): POST the
selected station and model to the forecast API; on success display the
returned data and metrics, on any error fall back to
`generateMockData`. The request outcome is passed in explicitly; the
station and model only enter the POST body, so on the failure path they
are unused. -/
def handleGenerate (outcome : Except Unit ServerForecastData)
    (selectedStation selectedModel : String) (rand : ℕ → ℚ) :
    List PredictionDatum × UiMetrics :=
  match outcome with
  | .ok resp => (resp.data, resp.metrics)
  | .error _ => generateMockData rand

/-- Shape of the mock fallback data: exactly 30 history points followed
by exactly 7 forecast points. -/
def mockShape (l : List PredictionDatum) : Prop :=
  l.length = 37 ∧ (∀ p ∈ l.take 30, p.tag = .history) ∧
    ∀ p ∈ l.drop 30, p.tag = .forecast

/-- C8: whenever the forecast POST fails, `handleGenerate` falls back to
`generateMockData`, which — for every station, model and random stream —
produces exactly 30 points tagged history followed by exactly 7 points
tagged forecast, and sets the displayed metrics to the fabricated
constants NSE = 0.94, RMSE = 0.032, MAE = 0.021, R2 = 0.96. -/
theorem handleGenerate_mock_fallback (selectedStation selectedModel : String)
    (rand : ℕ → ℚ) :
    mockShape (handleGenerate (.error ()) selectedStation selectedModel rand).1 ∧
    (handleGenerate (.error ()) selectedStation selectedModel rand).2 =
      ⟨94/100, 32/1000, 21/1000, 96/100⟩ := by
  unfold handleGenerate generateMockData mockShape
  refine ⟨⟨by simp, ?_, ?_⟩, rfl⟩
  · intro p hp
    rw [List.take_append_eq_append_take] at hp
    simp only [List.length_map, List.length_range, Nat.sub_self,
      List.take_zero, List.append_nil, List.take_of_length_le
        (by simp : ((List.range 30).map _).length ≤ 30)] at hp
    obtain ⟨j, -, rfl⟩ := List.mem_map.mp hp
    rfl
  · intro p hp
    rw [List.drop_append_eq_append_drop] at hp
    simp only [List.length_map, List.length_range, Nat.sub_self,
      List.drop_zero, List.drop_eq_nil_of_le
        (by simp : ((List.range 30).map _).length ≤ 30),
      List.nil_append] at hp
    obtain ⟨i, -, rfl⟩ := List.mem_map.mp hp
    rfl

/-! ## Forecasting core — error taxonomy (spec §7) -/

/-- Modelled from the spec: the error taxonomy of §7. The Python backend
implementing the forecasting core is not among the repository sources. -/
inductive CoreError
  | notFound
  | insufficientHistory
  | modelFitError
  | timeoutExceeded
  | invalidRequest
  deriving DecidableEq

/-! ## Signal Decomposer (spec §4.2)

Modelled from the spec: the wavelet decomposition service of the Python
backend is missing from the repository sources. §4.2 prescribes repeated
low-pass/high-pass splitting with a deterministic padding rule; §3
requires every component to have the source's length and the components
to sum back to the source. We therefore model an undecimated
(à-trous-style) multiresolution analysis: each level applies a two-tap
moving-average low-pass filter with repeat padding at the left edge and
keeps the removed high-frequency content `signal − lowPass signal` as
that level's detail component. -/

/-- A time series, values only (timestamps are implicit indices). -/
abbrev TimeSeries := List ℚ

/-- Low-pass tail: each output sample averages the previous and current
input sample. -/
def lowPassAux (prev : ℚ) : List ℚ → List ℚ
  | [] => []
  | x :: rest => (prev + x) / 2 :: lowPassAux x rest

/-- Two-tap moving-average low-pass filter with repeat padding at the
left boundary (the sample before the first is taken to be the first). -/
def lowPass : TimeSeries → TimeSeries
  | [] => []
  | x :: rest => lowPassAux x (x :: rest)

/-- Pointwise difference of equally long series. -/
def seriesSub (a b : TimeSeries) : TimeSeries := List.zipWith (· - ·) a b

/-- Pointwise sum of equally long series. -/
def seriesAdd (a b : TimeSeries) : TimeSeries := List.zipWith (· + ·) a b

/-- A decomposed series: one approximation component and the detail
components, shallowest level first (spec §3, DecomposedSeries). -/
structure DecomposedSeries where
  approximation : TimeSeries
  details : List TimeSeries
  deriving DecidableEq

/-- Modelled from the spec: K-level multiresolution decomposition —
at each level split the current approximation into a smoother
approximation and the removed detail. -/
def decomposeCore : ℕ → TimeSeries → DecomposedSeries
  | 0, xs => ⟨xs, []⟩
  | k + 1, xs =>
    let a := lowPass xs
    let d := seriesSub xs a
    let r := decomposeCore k a
    ⟨r.approximation, d :: r.details⟩

/-- Minimum history length required for decomposition (spec §4.2:
"L ≥ some minimum window, else fails with `InsufficientHistory`"). -/
def minDecompositionWindow : ℕ := 4

/-- Modelled from the spec: the Signal Decomposer entry point, failing
with `InsufficientHistory` on series shorter than the minimum window. -/
def decompose (levels : ℕ) (xs : TimeSeries) :
    Except CoreError DecomposedSeries :=
  if xs.length < minDecompositionWindow then .error .insufficientHistory
  else .ok (decomposeCore levels xs)

/-- Reconstruction: sum the approximation and every detail component
pointwise (spec §3: "summing all components reconstructs the source"). -/
def reconstruct (ds : DecomposedSeries) : TimeSeries :=
  ds.details.foldr seriesAdd ds.approximation

theorem lowPassAux_length (prev : ℚ) (xs : List ℚ) :
    (lowPassAux prev xs).length = xs.length := by
  induction xs generalizing prev with
  | nil => rfl
  | cons x rest ih => simp [lowPassAux, ih]

theorem lowPass_length (xs : TimeSeries) : (lowPass xs).length = xs.length := by
  cases xs with
  | nil => rfl
  | cons x rest => simp [lowPass, lowPassAux_length]

theorem seriesSub_add_cancel (xs a : List ℚ) (h : a.length = xs.length) :
    seriesAdd (seriesSub xs a) a = xs := by
  induction xs generalizing a with
  | nil => cases a with
    | nil => rfl
    | cons y ys => simp at h
  | cons x rest ih =>
    cases a with
    | nil => simp at h
    | cons y ys =>
      simp only [List.length_cons, Nat.add_right_cancel_iff] at h
      simp [seriesSub, seriesAdd] at ih ⊢
      exact ih ys h

theorem reconstruct_decomposeCore (k : ℕ) (xs : TimeSeries) :
    reconstruct (decomposeCore k xs) = xs := by
  induction k generalizing xs with
  | zero => rfl
  | succ k ih =>
    show reconstruct ⟨(decomposeCore k (lowPass xs)).approximation,
      seriesSub xs (lowPass xs) :: (decomposeCore k (lowPass xs)).details⟩ = xs
    show seriesAdd (seriesSub xs (lowPass xs))
      (reconstruct (decomposeCore k (lowPass xs))) = xs
    rw [ih (lowPass xs)]
    exact seriesSub_add_cancel xs (lowPass xs) (lowPass_length xs)

/-- C1: for every series at least as long as the minimum decomposition
window and every configured decomposition-level count, summing the
approximation and all detail components of the Signal Decomposer's
output reproduces the input series — here exactly over `ℚ`, hence a
fortiori within any floating-point tolerance. -/
theorem decompose_reconstruct_roundTrip (levels : ℕ) (xs : TimeSeries)
    (ds : DecomposedSeries) (h : decompose levels xs = .ok ds) :
    reconstruct ds = xs := by
  unfold decompose at h
  by_cases hlen : xs.length < minDecompositionWindow
  · rw [if_pos hlen] at h; cases h
  · rw [if_neg hlen] at h
    cases h
    exact reconstruct_decomposeCore levels xs

/-- Witness for C1: a concrete 5-sample series decomposed at 2 levels. -/
theorem decompose_reconstruct_roundTrip_witness :
    decompose 2 [1, 2, 4, 8, 16] = .ok (decomposeCore 2 [1, 2, 4, 8, 16]) ∧
    reconstruct (decomposeCore 2 [1, 2, 4, 8, 16]) = [1, 2, 4, 8, 16] :=
  ⟨rfl, decompose_reconstruct_roundTrip 2 [1, 2, 4, 8, 16]
    (decomposeCore 2 [1, 2, 4, 8, 16]) rfl⟩

/-! ## Topology Service (spec §4.1)

Modelled from the spec: the Neo4j-backed topology service of the Python
backend is missing from the repository sources (only its HTTP wrappers in
`api.ts` and the graph schema in the Neo4j init script exist). §4.1
prescribes `upstream_of` / `downstream_of` with cumulative distances,
`NotFound` for unknown stations, empty results for stations without
neighbors, and termination on cyclic data guaranteed by bounding the
traversal to `max_hops` and deduplicating visited nodes. -/

/-- Edge kinds of the network graph (spec §3, NetworkEdge). -/
inductive EdgeKind
  | flowsTo
  | monitors
  | influences
  deriving DecidableEq

/-- A directed network edge with its kind and distance (spec §3). -/
structure NetworkEdge where
  source : String
  target : String
  kind : EdgeKind
  distance : ℚ
  deriving DecidableEq

/-- The stored river-network graph: station ids and directed edges.
Nothing forbids cycles — they are a data-quality defect the traversal
must survive. -/
structure Graph where
  stations : List String
  edges : List NetworkEdge
  deriving DecidableEq

/-- One traversal result entry: `(station_id, cumulative distance,
edge kind)` as in the §4.1 contract. -/
structure TopoHit where
  station : String
  distance : ℚ
  kind : EdgeKind
  deriving DecidableEq

/-- Direct neighbors one hop in the given direction (`up = true` walks
edges backwards: the sources of edges that point at `s`). -/
def neighborsOf (g : Graph) (up : Bool) (s : String) :
    List (String × ℚ × EdgeKind) :=
  if up then
    (g.edges.filter (fun e => e.target == s)).map
      (fun e => (e.source, e.distance, e.kind))
  else
    (g.edges.filter (fun e => e.source == s)).map
      (fun e => (e.target, e.distance, e.kind))

/-- Concatenation of the images of `f`, used to expand a whole frontier
layer. -/
def concatMap (f : α → List β) : List α → List β
  | [] => []
  | x :: xs => f x ++ concatMap f xs

/-- Drop hits whose station was already visited (or repeats within the
layer), threading the growing visited set. -/
def dedupNew (visited : List String) : List TopoHit → List TopoHit × List String
  | [] => ([], visited)
  | h :: rest =>
    if h.station ∈ visited then dedupNew visited rest
    else
      let p := dedupNew (h.station :: visited) rest
      (h :: p.1, p.2)

/-- Bounded breadth-first traversal: one recursive step per hop, so the
recursion is structurally bounded by `max_hops`; the visited set
deduplicates nodes, so cyclic data cannot re-enter the frontier. -/
def bfsTraverse (g : Graph) (up : Bool) :
    ℕ → List (String × ℚ) → List String → List TopoHit
  | 0, _, _ => []
  | hops + 1, frontier, visited =>
    let layer := concatMap (fun sd : String × ℚ =>
      (neighborsOf g up sd.1).map
        (fun t => TopoHit.mk t.1 (sd.2 + t.2.1) t.2.2)) frontier
    let p := dedupNew visited layer
    p.1 ++ bfsTraverse g up hops (p.1.map (fun h => (h.station, h.distance))) p.2

/-- `upstream_of(station_id, max_hops)` (spec §4.1): `NotFound` when the
station id is absent from the graph, otherwise the deduplicated bounded
traversal against the flow direction. -/
def upstreamOf (g : Graph) (s : String) (maxHops : ℕ) :
    Except CoreError (List TopoHit) :=
  if s ∈ g.stations then .ok (bfsTraverse g true maxHops [(s, 0)] [s])
  else .error .notFound

/-- `downstream_of(station_id, max_hops)` (spec §4.1). -/
def downstreamOf (g : Graph) (s : String) (maxHops : ℕ) :
    Except CoreError (List TopoHit) :=
  if s ∈ g.stations then .ok (bfsTraverse g false maxHops [(s, 0)] [s])
  else .error .notFound

theorem dedupNew_sound (hits : List TopoHit) (visited : List String) :
    ((dedupNew visited hits).1.map TopoHit.station).Nodup ∧
    (∀ h ∈ (dedupNew visited hits).1, h.station ∉ visited) ∧
    (∀ s ∈ visited, s ∈ (dedupNew visited hits).2) ∧
    (∀ h ∈ (dedupNew visited hits).1, h.station ∈ (dedupNew visited hits).2) := by
  induction hits generalizing visited with
  | nil =>
    exact ⟨List.nodup_nil, fun h hm => absurd hm (List.not_mem_nil h),
      fun s hs => hs, fun h hm => absurd hm (List.not_mem_nil h)⟩
  | cons h rest ih =>
    by_cases hv : h.station ∈ visited
    · simpa [dedupNew, hv] using ih visited
    · obtain ⟨ih1, ih2, ih3, ih4⟩ := ih (h.station :: visited)
      refine ⟨?_, ?_, ?_, ?_⟩
      · simp only [dedupNew, if_neg hv, List.map_cons, List.nodup_cons]
        refine ⟨fun hmem => ?_, ih1⟩
        obtain ⟨h2, hh2, hst⟩ := List.mem_map.mp hmem
        exact (ih2 h2 hh2) (hst ▸ List.mem_cons_self _ _)
      · simp only [dedupNew, if_neg hv]
        intro h2 hh2
        rcases List.mem_cons.mp hh2 with rfl | hh2
        · exact hv
        · exact fun hc => (ih2 h2 hh2) (List.mem_cons_of_mem _ hc)
      · simp only [dedupNew, if_neg hv]
        intro s hs
        exact ih3 s (List.mem_cons_of_mem _ hs)
      · simp only [dedupNew, if_neg hv]
        intro h2 hh2
        rcases List.mem_cons.mp hh2 with rfl | hh2
        · exact ih3 h2.station (List.mem_cons_self _ _)
        · exact ih4 h2 hh2

theorem bfsTraverse_nodup (g : Graph) (up : Bool) (hops : ℕ)
    (frontier : List (String × ℚ)) (visited : List String) :
    ((bfsTraverse g up hops frontier visited).map TopoHit.station).Nodup ∧
    ∀ h ∈ bfsTraverse g up hops frontier visited, h.station ∉ visited := by
  induction hops generalizing frontier visited with
  | zero => exact ⟨List.nodup_nil, by simp [bfsTraverse]⟩
  | succ hops ih =>
    set layer := concatMap (fun sd : String × ℚ =>
      (neighborsOf g up sd.1).map
        (fun t => TopoHit.mk t.1 (sd.2 + t.2.1) t.2.2)) frontier with hlayer
    obtain ⟨d1, d2, d3, d4⟩ := dedupNew_sound layer visited
    obtain ⟨r1, r2⟩ := ih ((dedupNew visited layer).1.map
      (fun h => (h.station, h.distance))) (dedupNew visited layer).2
    have hshow : bfsTraverse g up (hops + 1) frontier visited =
        (dedupNew visited layer).1 ++ bfsTraverse g up hops
          ((dedupNew visited layer).1.map (fun h => (h.station, h.distance)))
          (dedupNew visited layer).2 := rfl
    constructor
    · rw [hshow, List.map_append]
      rw [List.nodup_append]
      refine ⟨d1, r1, ?_⟩
      intro s hs hs2
      obtain ⟨h1, hh1, rfl⟩ := List.mem_map.mp hs
      obtain ⟨h2, hh2, heq⟩ := List.mem_map.mp hs2
      exact (r2 h2 hh2) (heq ▸ d4 h1 hh1)
    · rw [hshow]
      intro h hmem
      rcases List.mem_append.mp hmem with hmem | hmem
      · exact d2 h hmem
      · exact fun hc => (r2 h hmem) (d3 h.station hc)

/-- C4: the Topology Service's `upstream_of` and `downstream_of` are
total functions — they return a well-defined result on every input, with
no acyclicity assumption on the stored graph, because each recursive
step consumes one unit of the `max_hops` budget and the visited set
deduplicates nodes; moreover every returned station id is distinct and
was not visited before the traversal started. -/
theorem topology_traversal_terminates (g : Graph) (s : String) (maxHops : ℕ) :
    (∀ r, upstreamOf g s maxHops = .ok r → (r.map TopoHit.station).Nodup) ∧
    (∀ r, downstreamOf g s maxHops = .ok r → (r.map TopoHit.station).Nodup) ∧
    (s ∈ g.stations → (upstreamOf g s maxHops).isOk ∧
      (downstreamOf g s maxHops).isOk) := by
  refine ⟨?_, ?_, ?_⟩
  · intro r hr
    unfold upstreamOf at hr
    by_cases hm : s ∈ g.stations
    · rw [if_pos hm] at hr
      cases hr
      exact (bfsTraverse_nodup g true maxHops [(s, 0)] [s]).1
    · rw [if_neg hm] at hr; cases hr
  · intro r hr
    unfold downstreamOf at hr
    by_cases hm : s ∈ g.stations
    · rw [if_pos hm] at hr
      cases hr
      exact (bfsTraverse_nodup g false maxHops [(s, 0)] [s]).1
    · rw [if_neg hm] at hr; cases hr
  · intro hm
    unfold upstreamOf downstreamOf
    rw [if_pos hm, if_pos hm]
    exact ⟨rfl, rfl⟩

/-- A deliberately cyclic two-station graph: A flows to B and B flows
back to A. -/
def cyclicGraph : Graph :=
  ⟨["A", "B"], [⟨"A", "B", .flowsTo, 50⟩, ⟨"B", "A", .flowsTo, 50⟩]⟩

/-- Witness for C4 on the cyclic graph: both traversals return results
with pairwise-distinct station ids instead of looping. -/
theorem topology_traversal_terminates_witness :
    ((bfsTraverse cyclicGraph true 10 [("A", 0)] ["A"]).map
      TopoHit.station).Nodup ∧
    ((bfsTraverse cyclicGraph false 10 [("A", 0)] ["A"]).map
      TopoHit.station).Nodup ∧
    ("A" ∈ cyclicGraph.stations →
      (upstreamOf cyclicGraph "A" 10).isOk ∧
      (downstreamOf cyclicGraph "A" 10).isOk) :=
  ⟨(topology_traversal_terminates cyclicGraph "A" 10).1
      (bfsTraverse cyclicGraph true 10 [("A", 0)] ["A"]) rfl,
    (topology_traversal_terminates cyclicGraph "A" 10).2.1
      (bfsTraverse cyclicGraph false 10 [("A", 0)] ["A"]) rfl,
    (topology_traversal_terminates cyclicGraph "A" 10).2.2⟩

/-! ## Spatial Propagation Predictor (spec §4.5)

Modelled from the spec: the GNN-based spatial module of the Python
backend is missing from the repository sources. §4.5 prescribes, per
upstream neighbor, a lag derived from distance over a configured
propagation speed and a decay weight (inverse of distance, scaled by an
edge-kind-specific multiplier), and
`adjustment[t] = Σ_neighbors weight_n * neighbor_history[t − lag_n]`,
with a zero adjustment (never an error) for stations without upstream
neighbors. -/

/-- Domain constants for spatial propagation, exposed as configuration
(spec §9). -/
structure SpatialConfig where
  maxHops : ℕ
  propagationSpeed : ℚ
  flowsToMult : ℚ
  monitorsMult : ℚ
  influencesMult : ℚ
  deriving DecidableEq

/-- Edge-kind-specific weight multiplier (spec §4.5: `influences` edges
from reservoirs carry a distinct weight profile from `flows_to`). -/
def kindMult (cfg : SpatialConfig) : EdgeKind → ℚ
  | .flowsTo => cfg.flowsToMult
  | .monitors => cfg.monitorsMult
  | .influences => cfg.influencesMult

/-- Decay weight of a neighbor: edge-kind multiplier over one plus the
cumulative distance (inverse-distance decay kept total at distance 0). -/
def decayWeight (cfg : SpatialConfig) (n : TopoHit) : ℚ :=
  kindMult cfg n.kind / (1 + n.distance)

/-- Propagation lag of a neighbor in whole periods: distance over the
configured propagation speed, rounded up. -/
def lagOf (cfg : SpatialConfig) (n : TopoHit) : ℕ :=
  ⌈n.distance / cfg.propagationSpeed⌉.toNat

/-- `neighbor_history[t − lag]` with explicit indexing: history is the
observed past (most recent sample last), forecast step `t` counts from
the end of history, and indices before the start of history read as 0. -/
def laggedValue (hist : TimeSeries) (lag : ℕ) (t : ℕ) : ℚ :=
  let idx : ℤ := (hist.length : ℤ) + t - lag
  if idx < 0 then 0 else hist.getD idx.toNat 0

/-- Modelled from the spec: the Spatial Propagation Predictor's
adjustment series for a target station — for each forecast step, the
weighted sum of upstream neighbors' lagged history. -/
def spatialAdjustment (cfg : SpatialConfig) (g : Graph)
    (histories : String → TimeSeries) (s : String) (H : ℕ) :
    Except CoreError (List ℚ) :=
  match upstreamOf g s cfg.maxHops with
  | .error e => .error e
  | .ok nbrs => .ok ((List.range H).map (fun t =>
      (nbrs.map (fun n =>
        decayWeight cfg n * laggedValue (histories n.station) (lagOf cfg n) t)).sum))

/-- C6: a station whose upstream query returns no neighbors gets a
spatial adjustment that is exactly zero at every forecast step, and the
predictor succeeds rather than erroring. -/
theorem isolated_station_zero_adjustment (cfg : SpatialConfig) (g : Graph)
    (histories : String → TimeSeries) (s : String) (H : ℕ)
    (h : upstreamOf g s cfg.maxHops = .ok []) :
    spatialAdjustment cfg g histories s H = .ok (List.replicate H 0) := by
  unfold spatialAdjustment
  rw [h]
  refine congrArg Except.ok ?_
  have : ∀ t : ℕ, (([] : List TopoHit).map (fun n =>
      decayWeight cfg n * laggedValue (histories n.station) (lagOf cfg n) t)).sum
      = 0 := fun t => rfl
  calc (List.range H).map (fun t => (([] : List TopoHit).map (fun n =>
        decayWeight cfg n * laggedValue (histories n.station) (lagOf cfg n) t)).sum)
      = (List.range H).map (fun _ => (0 : ℚ)) := List.map_congr_left (fun t _ => this t)
    _ = List.replicate H 0 := by
        rw [List.map_const']
        rw [List.length_range]

/-- A headwater configuration: `A` flows to `B`, so `A` itself has no
upstream neighbors. -/
def headwaterGraph : Graph := ⟨["A", "B"], [⟨"A", "B", .flowsTo, 50⟩]⟩

/-- Spatial configuration used by the concrete witnesses. -/
def witnessSpatialCfg : SpatialConfig := ⟨3, 1, 1, 1, 1⟩

/-- Witness for C6: the isolated headwater station `A` receives the
all-zero adjustment over a 4-step horizon. -/
theorem isolated_station_zero_adjustment_witness :
    spatialAdjustment witnessSpatialCfg headwaterGraph
        (fun _ => [1, 2, 3]) "A" 4 = .ok (List.replicate 4 0) :=
  isolated_station_zero_adjustment witnessSpatialCfg headwaterGraph
    (fun _ => [1, 2, 3]) "A" 4 rfl

/-! ## Trend and Fluctuation Predictors (spec §4.3, §4.4)

Modelled from the spec: the SARIMA trend predictor and Bi-LSTM
fluctuation predictor of the Python backend are missing from the
repository sources. The claims under verification only depend on the
predictors' contracts — an H-length value series plus a residual
variance, with `ModelFitError` on short or zero-variance input — so the
extrapolation rules are kept to the spec's own documented fallback
family (seasonal / mean continuation). -/

/-- Arithmetic mean of a series (`0` on the empty series, as ℚ division
by zero is zero). -/
def seriesMean (xs : List ℚ) : ℚ := xs.sum / (xs.length : ℚ)

/-- Total sum of squares about the mean — the spec's zero-variance
detector `Σ(obs−mean(obs))²`. -/
def ssTot (xs : List ℚ) : ℚ := (xs.map (fun x => (x - seriesMean xs) ^ 2)).sum

/-- Mean squared deviation from the series mean, used as the fitted
residual variance of the modelled predictors. -/
def residualVariance (xs : List ℚ) : ℚ := ssTot xs / (xs.length : ℚ)

/-- Last observed value (0 for an empty series). -/
def lastValue (xs : List ℚ) : ℚ := xs.getLast?.getD 0

/-- Nonnegative rational square-root approximation
`⌊√(num·den)⌋ / den`, the computable stand-in for the spec's square
root; only its nonnegativity matters to the claims. -/
def ratSqrt (q : ℚ) : ℚ := (Nat.sqrt (q.num.toNat * q.den) : ℚ) / (q.den : ℚ)

theorem ratSqrt_nonneg (q : ℚ) : 0 ≤ ratSqrt q :=
  div_nonneg (Nat.cast_nonneg _) (Nat.cast_nonneg _)

/-- One predictor's output: an H-length forecast with the variance of
its error source (spec §4.6 treats components as independent error
sources whose variances sum). -/
structure ComponentForecast where
  values : List ℚ
  variance : ℚ
  deriving DecidableEq

/-- Seasonal continuation: the value one season back, cycled over the
forecast horizon (the trend model's periodic extrapolation). -/
def seasonalValueAt (xs : List ℚ) (season t : ℕ) : ℚ :=
  if season = 0 ∨ xs.length < season then lastValue xs
  else xs.getD (xs.length - season + t % season) 0

/-- Modelled from the spec: the Trend Predictor (§4.3) — fails with
`ModelFitError` when the approximation series is too short or has zero
variance, otherwise extrapolates the seasonal pattern with the fitted
residual variance. -/
def trendPredict (season : ℕ) (approx : TimeSeries) (H : ℕ) :
    Except CoreError ComponentForecast :=
  if approx.length < 2 ∨ ssTot approx = 0 then .error .modelFitError
  else .ok ⟨(List.range H).map (fun t => seasonalValueAt approx season t),
    residualVariance approx⟩

/-- Naive persistence: the last observed value repeated — the §4.8
fallback the Orchestrator substitutes on a trend `ModelFitError`. -/
def naivePersistence (xs : TimeSeries) (H : ℕ) : ComponentForecast :=
  ⟨List.replicate H (lastValue xs), residualVariance xs⟩

/-- Modelled from the spec: the Fluctuation Predictor (§4.4) — builds
its state from the whole available history of the detail component and
continues it, with an empirical variance from that history. -/
def fluctuationPredict (detail : TimeSeries) (H : ℕ) : ComponentForecast :=
  ⟨List.replicate H (seriesMean detail), residualVariance detail⟩

/-! ## Ensemble Combiner (spec §4.6) -/

/-- z-score for the configured 95 % confidence level. -/
def zScore : ℚ := 196 / 100

/-- One forecast output point (spec §3, ForecastResult entries):
`(timestamp, point_estimate, lower_bound, upper_bound)` with the
timestamp as the forecast step index. -/
structure ForecastPoint where
  step : ℕ
  point_estimate : ℚ
  lower_bound : ℚ
  upper_bound : ℚ
  deriving DecidableEq

/-- A forecast result: the ordered output points. -/
structure ForecastResult where
  points : List ForecastPoint
  deriving DecidableEq

/-- Modelled from the spec: the Ensemble Combiner (§4.6) — point
estimate = trend + Σ detail forecasts + spatial adjustment; combined
variance = sum of component variances; bounds = point ± z·√variance;
as the forecast variables (discharge, water level) are physically
non-negative, the documented domain post-processing clips the result at
zero. -/
def combine (trend : ComponentForecast) (fluctuations : List ComponentForecast)
    (spatial : List ℚ) (H : ℕ) : ForecastResult :=
  let combinedVariance :=
    trend.variance + (fluctuations.map ComponentForecast.variance).sum
  let w := zScore * ratSqrt combinedVariance
  ⟨(List.range H).map (fun t =>
    let pe := trend.values.getD t 0 +
      (fluctuations.map (fun f => f.values.getD t 0)).sum + spatial.getD t 0
    ⟨t, max 0 pe, max 0 (pe - w), max 0 (pe + w)⟩)⟩

/-- The §3 bounds invariant, as a predicate on results. -/
def boundsOrdered (r : ForecastResult) : Prop :=
  ∀ p ∈ r.points,
    p.lower_bound ≤ p.point_estimate ∧ p.point_estimate ≤ p.upper_bound

theorem combine_length (trend : ComponentForecast)
    (fluctuations : List ComponentForecast) (spatial : List ℚ) (H : ℕ) :
    (combine trend fluctuations spatial H).points.length = H := by
  simp [combine]

theorem combine_boundsOrdered (trend : ComponentForecast)
    (fluctuations : List ComponentForecast) (spatial : List ℚ) (H : ℕ) :
    boundsOrdered (combine trend fluctuations spatial H) := by
  intro p hp
  unfold combine at hp
  simp only [List.mem_map] at hp
  obtain ⟨t, -, rfl⟩ := hp
  have hw : 0 ≤ zScore * ratSqrt (trend.variance +
      (fluctuations.map ComponentForecast.variance).sum) :=
    mul_nonneg (by norm_num [zScore]) (ratSqrt_nonneg _)
  constructor
  · exact max_le_max le_rfl (by linarith)
  · exact max_le_max le_rfl (by linarith)

/-! ## Forecast Orchestrator (spec §4.8) -/

/-- Model selection of a forecast request (spec §3). -/
inductive ModelSelection
  | trend
  | fluctuation
  | spatial
  | hybrid
  deriving DecidableEq

/-- A forecast request (spec §3): station id, requested horizon, model
selection. The horizon is an integer so that zero and negative requests
are representable. -/
structure ForecastRequest where
  stationId : String
  horizon : ℤ
  model : ModelSelection
  deriving DecidableEq

/-- Work stages the Orchestrator has started, recorded so that "no work
is started before validation" is observable (spec §4.8 state machine). -/
inductive PipelineStage
  | decomposing
  | predicting
  | propagating
  | combining
  deriving DecidableEq

/-- The read-only collaborators and configuration a request runs
against (spec §5–§6): topology graph, historical observation store,
spatial constants, season length, decomposition level count. -/
structure CoreEnv where
  graph : Graph
  histories : String → TimeSeries
  spatialCfg : SpatialConfig
  season : ℕ
  levels : ℕ

/-- The Trend Predictor with the Orchestrator's documented soft-failure
handling (spec §4.8): on `ModelFitError`, substitute naive persistence
and continue. -/
def fallbackTrend (season : ℕ) (approx : TimeSeries) (H : ℕ) :
    ComponentForecast :=
  match trendPredict season approx H with
  | .ok f => f
  | .error _ => naivePersistence approx H

/-- Model-selection dispatch (spec §9: a tagged variant, not
inheritance): unselected components contribute zero. -/
def selectCombine (m : ModelSelection) (trendF : ComponentForecast)
    (flucs : List ComponentForecast) (adj : List ℚ) (H : ℕ) :
    ForecastResult :=
  match m with
  | .hybrid => combine trendF flucs adj H
  | .trend => combine trendF [] (List.replicate H 0) H
  | .fluctuation =>
    combine ⟨List.replicate H 0, 0⟩ flucs (List.replicate H 0) H
  | .spatial => combine ⟨List.replicate H 0, 0⟩ [] adj H

/-- Modelled from the spec: the Forecast Orchestrator (§4.8) —
`Validating → Decomposing → Predicting → Propagating → Combining`,
returning both the result and the list of stages actually started.
Validation checks the horizon bound and station existence before any
work; a trend `ModelFitError` degrades to naive persistence instead of
aborting. -/
def forecastTraced (env : CoreEnv) (req : ForecastRequest) :
    Except CoreError ForecastResult × List PipelineStage :=
  if req.horizon ≤ 0 then (.error .invalidRequest, [])
  else if req.stationId ∉ env.graph.stations then (.error .notFound, [])
  else
    match decompose env.levels (env.histories req.stationId) with
    | .error e => (.error e, [.decomposing])
    | .ok ds =>
      match spatialAdjustment env.spatialCfg env.graph env.histories
          req.stationId req.horizon.toNat with
      | .error e => (.error e, [.decomposing, .predicting, .propagating])
      | .ok adj =>
        (.ok (selectCombine req.model
          (fallbackTrend env.season ds.approximation req.horizon.toNat)
          (ds.details.map (fun d => fluctuationPredict d req.horizon.toNat))
          adj req.horizon.toNat),
         [.decomposing, .predicting, .propagating, .combining])

/-- `forecast(station_id, horizon, model)` of §6: the Orchestrator's
result without the stage trace. -/
def forecast (env : CoreEnv) (req : ForecastRequest) :
    Except CoreError ForecastResult :=
  (forecastTraced env req).1

theorem selectCombine_length (m : ModelSelection) (trendF : ComponentForecast)
    (flucs : List ComponentForecast) (adj : List ℚ) (H : ℕ) :
    (selectCombine m trendF flucs adj H).points.length = H := by
  cases m <;> exact combine_length ..

theorem selectCombine_boundsOrdered (m : ModelSelection)
    (trendF : ComponentForecast) (flucs : List ComponentForecast)
    (adj : List ℚ) (H : ℕ) :
    boundsOrdered (selectCombine m trendF flucs adj H) := by
  cases m <;> exact combine_boundsOrdered _ _ _ _

/-- C5: a forecast request with a zero or negative horizon is rejected
with `InvalidRequest` during validation, with an empty stage trace — no
decomposition, prediction, propagation, or combination work is
started. -/
theorem invalid_horizon_rejected (env : CoreEnv) (req : ForecastRequest)
    (h : req.horizon ≤ 0) :
    forecastTraced env req = (.error .invalidRequest, []) := by
  unfold forecastTraced
  rw [if_pos h]

/-- The environment used by the concrete orchestrator witnesses: the
headwater graph, an 8-sample history, weekly seasonality, 2
decomposition levels. -/
def witnessEnv : CoreEnv :=
  ⟨headwaterGraph, fun _ => [1, 2, 3, 4, 5, 6, 7, 8], witnessSpatialCfg, 7, 2⟩

/-- Witness for C5 at horizon 0. -/
theorem invalid_horizon_rejected_witness :
    forecastTraced witnessEnv ⟨"A", 0, .hybrid⟩ =
      (.error .invalidRequest, []) :=
  invalid_horizon_rejected witnessEnv ⟨"A", 0, .hybrid⟩ (le_refl 0)

/-- C3: every accepted forecast request with horizon H returns a
result with exactly H points. -/
theorem forecast_horizon_length (env : CoreEnv) (req : ForecastRequest)
    (r : ForecastResult) (h : forecast env req = .ok r) :
    r.points.length = req.horizon.toNat := by
  unfold forecast forecastTraced at h
  split at h
  · exact Except.noConfusion h
  · split at h
    · exact Except.noConfusion h
    · split at h
      · exact Except.noConfusion h
      · split at h
        · exact Except.noConfusion h
        · cases h
          exact selectCombine_length ..

/-- The accepted witness request: station A, horizon 5, hybrid model. -/
def witnessReq : ForecastRequest := ⟨"A", 5, .hybrid⟩

/-- The concrete result the witness request evaluates to. -/
def witnessForecast : ForecastResult :=
  match forecast witnessEnv witnessReq with
  | .ok r => r
  | .error _ => ⟨[]⟩

/-- Witness for C3: the concrete horizon-5 request yields exactly 5
points. -/
theorem forecast_horizon_length_witness :
    forecast witnessEnv witnessReq = .ok witnessForecast ∧
    witnessForecast.points.length = witnessReq.horizon.toNat :=
  ⟨rfl, forecast_horizon_length witnessEnv witnessReq witnessForecast rfl⟩

/-- C2: every forecast result produced by the core satisfies
`lower_bound ≤ point_estimate ≤ upper_bound` at every point. -/
theorem forecast_bounds_ordered (env : CoreEnv) (req : ForecastRequest)
    (r : ForecastResult) (h : forecast env req = .ok r) :
    boundsOrdered r := by
  unfold forecast forecastTraced at h
  split at h
  · exact Except.noConfusion h
  · split at h
    · exact Except.noConfusion h
    · split at h
      · exact Except.noConfusion h
      · split at h
        · exact Except.noConfusion h
        · cases h
          exact selectCombine_boundsOrdered _ _ _ _ _

/-- Witness for C2 on the concrete horizon-5 request. -/
theorem forecast_bounds_ordered_witness :
    forecast witnessEnv witnessReq = .ok witnessForecast ∧
    boundsOrdered witnessForecast :=
  ⟨rfl, forecast_bounds_ordered witnessEnv witnessReq witnessForecast rfl⟩

/-! ## Evaluator (spec §4.7)

Modelled from the spec: the metrics module of the Python backend is
missing from the repository sources. §4.7 and §3 prescribe
NSE = 1 − Σ(obs−pred)²/Σ(obs−mean(obs))², undefined when the reference
variance is zero; KGE combining correlation, variability ratio and bias
ratio, likewise guarded; RMSE and MAE as standard error norms that stay
plain numbers. `Option` is the explicit "undefined" marking. -/

/-- Accuracy metrics (spec §3, EvaluationMetrics): NSE and KGE may be
explicitly undefined (`none`), RMSE and MAE are always plain numbers. -/
structure EvaluationMetrics where
  NSE : Option ℚ
  KGE : Option ℚ
  RMSE : ℚ
  MAE : ℚ
  deriving DecidableEq

/-- Sum of squared forecast errors `Σ(obs−pred)²`. -/
def sse (obs pred : List ℚ) : ℚ :=
  (List.zipWith (fun o p => (o - p) ^ 2) obs pred).sum

/-- KGE body: `1 − √((r−1)² + (α−1)² + (β−1)²)` from correlation `r`,
variability ratio `α`, bias ratio `β` (only evaluated under the
nonzero-reference-variance guard). -/
def kgeScore (obs pred : List ℚ) : ℚ :=
  let mo := seriesMean obs
  let mp := seriesMean pred
  let so := ratSqrt (ssTot obs)
  let sp := ratSqrt (ssTot pred)
  let cov := (List.zipWith (fun o p => (o - mo) * (p - mp)) obs pred).sum
  let r := cov / ((obs.length : ℚ) * so * sp)
  1 - ratSqrt ((r - 1) ^ 2 + (sp / so - 1) ^ 2 + (mp / mo - 1) ^ 2)

/-- Modelled from the spec: the Evaluator (§4.7), with NSE and KGE
explicitly marked undefined when `Σ(obs−mean(obs))² = 0`. -/
def evaluate (obs pred : List ℚ) : EvaluationMetrics :=
  ⟨if ssTot obs = 0 then none else some (1 - sse obs pred / ssTot obs),
   if ssTot obs = 0 then none else some (kgeScore obs pred),
   ratSqrt (sse obs pred / (obs.length : ℚ)),
   (List.zipWith (fun o p => |o - p|) obs pred).sum / (obs.length : ℚ)⟩

theorem sum_zipWith_nonneg (f : ℚ → ℚ → ℚ) (hf : ∀ a b, 0 ≤ f a b) :
    ∀ (as bs : List ℚ), 0 ≤ (List.zipWith f as bs).sum := by
  intro as
  induction as with
  | nil => intro bs; simp
  | cons a rest ih =>
    intro bs
    cases bs with
    | nil => simp
    | cons b bs =>
      simp only [List.zipWith_cons_cons, List.sum_cons]
      exact add_nonneg (hf a b) (ih bs)

/-- C7: when the reference series has zero variance, the Evaluator
returns NSE and KGE explicitly marked undefined (`none`) rather than a
NaN-like value that could propagate, while RMSE and MAE remain plain
(nonnegative) numbers. -/
theorem zero_variance_metrics (obs pred : List ℚ) (h : ssTot obs = 0) :
    (evaluate obs pred).NSE = none ∧ (evaluate obs pred).KGE = none ∧
    0 ≤ (evaluate obs pred).RMSE ∧ 0 ≤ (evaluate obs pred).MAE := by
  unfold evaluate
  refine ⟨by simp [h], by simp [h], ratSqrt_nonneg _, ?_⟩
  exact div_nonneg
    (sum_zipWith_nonneg (fun o p => |o - p|) (fun a b => abs_nonneg _) obs pred)
    (Nat.cast_nonneg _)

/-- Witness for C7 on a constant reference series. -/
theorem zero_variance_metrics_witness :
    (evaluate [3, 3, 3] [1, 2, 3]).NSE = none ∧
    (evaluate [3, 3, 3] [1, 2, 3]).KGE = none ∧
    0 ≤ (evaluate [3, 3, 3] [1, 2, 3]).RMSE ∧
    0 ≤ (evaluate [3, 3, 3] [1, 2, 3]).MAE :=
  zero_variance_metrics [3, 3, 3] [1, 2, 3]
    (by norm_num [ssTot, seriesMean])

end Gimat
